import Mathlib

/-!
Verification of the restaurant ordering backend (catalog / cart / order /
payment components) against its natural-language specification.

The TypeScript handlers are shallowly embedded as executable Lean functions
over an explicit relational `Store`.

Modelling conventions:
* `numeric(10,2)` column values (prices, amounts, totals) are integers in
  cents; the monetary amounts crossing the RPC boundary carry two decimal
  places of precision, so they are integers in cents as well.
* JavaScript number arithmetic (`parseFloat` of a decimal string, `*`,
  `+=`) is modelled by correctly rounded binary64 operations (53-bit
  significand, round to nearest, ties to even) over an exact fraction type
  `Frac`; monetary values stay far inside the normal range of doubles, so
  subnormals and overflow never arise.
* Timestamps (`new Date()` / `Date.now()`) are integer milliseconds passed
  in explicitly as `now`; `Math.random()` draws are passed in explicitly
  as a fraction in `[0,1)`.
* The data store executes statements with SQL semantics (row update by
  predicate, first-row selection, inner joins); `serial` ids come from
  per-table counters in the `Store`.
-/

namespace Resto

/-! ### Exact fractions with kernel-friendly integer arithmetic

`Frac` is an unnormalised fraction `n / d`; every operation below keeps
`d` positive by construction.  Value comparisons cross-multiply, so no
gcd normalisation is ever needed and every operation reduces in the
kernel and the elaborator. -/

structure Frac where
  n : ℤ
  d : ℤ
deriving DecidableEq, Repr

/-- The fraction `n / 1`. -/
def Frac.ofInt (n : ℤ) : Frac := ⟨n, 1⟩

/-- A `numeric(10,2)` value given in cents, as the fraction `c / 100`. -/
def Frac.ofCents (c : ℤ) : Frac := ⟨c, 100⟩

def Frac.add (x y : Frac) : Frac := ⟨x.n * y.d + y.n * x.d, x.d * y.d⟩

def Frac.mul (x y : Frac) : Frac := ⟨x.n * y.n, x.d * y.d⟩

/-- Value order on fractions (valid because denominators stay positive). -/
def Frac.flt (x y : Frac) : Prop := x.n * y.d < y.n * x.d

/-- Value equality on fractions (valid because denominators stay positive). -/
def Frac.feq (x y : Frac) : Prop := x.n * y.d = y.n * x.d

instance (x y : Frac) : Decidable (Frac.flt x y) := by
  unfold Frac.flt; infer_instance

instance (x y : Frac) : Decidable (Frac.feq x y) := by
  unfold Frac.feq; infer_instance

/-! ### IEEE-754 binary64 model -/

/-- Floor of the base-2 logarithm of a positive fraction, computed with
explicit fuel so that it reduces everywhere.  For positive `x` and fuel
at least `|log2 x| + 1` it returns the unique `e` with
`2 ^ e ≤ x < 2 ^ (e + 1)`; fuel 3000 covers the whole binary64 range. -/
def floorLog2 : ℕ → Frac → ℤ
  | 0, _ => 0
  | fuel + 1, x =>
    if Frac.flt x (Frac.ofInt 1) then floorLog2 fuel ⟨2 * x.n, x.d⟩ - 1
    else if Frac.flt x (Frac.ofInt 2) then 0
    else floorLog2 fuel ⟨x.n, 2 * x.d⟩ + 1

/-- Multiply a fraction by `2 ^ k` for an integer `k`. -/
def mulPow2 (x : Frac) (k : ℤ) : Frac :=
  if 0 ≤ k then ⟨x.n * 2 ^ k.toNat, x.d⟩ else ⟨x.n, x.d * 2 ^ (-k).toNat⟩

/-- The dyadic fraction `m / 2 ^ k` for an integer `k`. -/
def dyadic (m : ℤ) (k : ℤ) : Frac :=
  if 0 ≤ k then ⟨m, 2 ^ k.toNat⟩ else ⟨m * 2 ^ (-k).toNat, 1⟩

/-- Round a fraction (with positive denominator) to the nearest integer,
ties to even — the IEEE-754 default rounding used by JavaScript. -/
def roundHalfEven (x : Frac) : ℤ :=
  let f : ℤ := Int.ediv x.n x.d
  let r : ℤ := x.n - f * x.d
  if 2 * r < x.d then f
  else if x.d < 2 * r then f + 1
  else if f % 2 = 0 then f else f + 1

/-- Correctly rounded binary64 value of a fraction (53-bit significand,
round to nearest, ties to even).  Faithful for the normal range of
doubles, which the monetary values of this system never leave. -/
def roundDouble (x : Frac) : Frac :=
  if x.n = 0 then Frac.ofInt 0
  else
    let a : Frac := ⟨|x.n|, x.d⟩
    let e : ℤ := floorLog2 3000 a
    let m : ℤ := roundHalfEven (mulPow2 a (52 - e))
    dyadic (if 0 < x.n then m else -m) (52 - e)

/-- JavaScript `parseFloat` applied to the decimal string of a
`numeric(10,2)` column value given in cents: the correctly rounded double
of that decimal. -/
def jsParseCents (c : ℤ) : Frac := roundDouble (Frac.ofCents c)

/-- JavaScript multiplication of two doubles (one rounding step). -/
def jsMul (x y : Frac) : Frac := roundDouble (Frac.mul x y)

/-- JavaScript addition of two doubles (one rounding step). -/
def jsAdd (x y : Frac) : Frac := roundDouble (Frac.add x y)

/-- Storage of a JavaScript number into a `numeric(10,2)` column, in
cents: PostgreSQL rounds the decimal serialisation to scale 2, half away
from zero. -/
def round2cents (x : Frac) : ℤ :=
  let num : ℤ := x.n * 100
  if 0 ≤ num then Int.ediv (2 * num + x.d) (2 * x.d)
  else -Int.ediv (2 * (-num) + x.d) (2 * x.d)

/-! ### Data model (db/schema.ts and schema.ts) -/

inductive OrderStatus
  | pending | confirmed | preparing | ready | completed | cancelled
deriving DecidableEq, Repr

/-- The `payment_status` enum of the orders table. -/
inductive OrderPayStatus
  | pending | paid | failed | refunded
deriving DecidableEq, Repr

/-- The `qr_payment_status` enum of the payments table. -/
inductive PayStatus
  | pending | paid | failed | expired
deriving DecidableEq, Repr

structure Category where
  id : ℤ
  name : String
  description : Option String
  created_at : ℤ
deriving DecidableEq, Repr

structure MenuItem where
  id : ℤ
  name : String
  description : Option String
  price : ℤ
  category_id : ℤ
  image_url : Option String
  is_available : Bool
  created_at : ℤ
deriving DecidableEq, Repr

structure CartItem where
  id : ℤ
  session_id : String
  menu_item_id : ℤ
  quantity : ℤ
  created_at : ℤ
deriving DecidableEq, Repr

structure Order where
  id : ℤ
  customer_name : String
  customer_phone : Option String
  customer_email : Option String
  total_amount : ℤ
  status : OrderStatus
  payment_status : OrderPayStatus
  payment_method : Option String
  payment_reference : Option String
  notes : Option String
  created_at : ℤ
  updated_at : ℤ
deriving DecidableEq, Repr

structure OrderItem where
  id : ℤ
  order_id : ℤ
  menu_item_id : ℤ
  quantity : ℤ
  price_at_time : ℤ
  created_at : ℤ
deriving DecidableEq, Repr

structure Payment where
  id : ℤ
  order_id : ℤ
  payment_gateway : String
  qr_code_data : String
  qr_code_url : Option String
  amount : ℤ
  status : PayStatus
  gateway_reference : Option String
  expires_at : Option ℤ
  paid_at : Option ℤ
  created_at : ℤ
  updated_at : ℤ
deriving DecidableEq, Repr

/-- The relational store: the six tables plus a `serial` counter per
table for freshly inserted ids. -/
structure Store where
  categories : List Category
  menuItems : List MenuItem
  cartItems : List CartItem
  orders : List Order
  orderItems : List OrderItem
  payments : List Payment
  nextCategoryId : ℤ
  nextMenuItemId : ℤ
  nextCartItemId : ℤ
  nextOrderId : ℤ
  nextOrderItemId : ℤ
  nextPaymentId : ℤ
deriving DecidableEq, Repr

def emptyStore : Store :=
  ⟨[], [], [], [], [], [], 1, 1, 1, 1, 1, 1⟩

/-- The spec's error taxonomy (section 7); the handlers throw `Error`s
whose messages realise exactly these kinds. -/
inductive AppError
  | notFound | constraintViolation | unavailable | emptyCart
  | invalidState | alreadyPaid
deriving DecidableEq, Repr

/-- SQL `UPDATE ... WHERE p`: apply `f` to every row satisfying `p`. -/
def updateWhere (p : α → Bool) (f : α → α) (l : List α) : List α :=
  l.map fun x => if p x then f x else x

instance {ε α : Type} [DecidableEq ε] [DecidableEq α] : DecidableEq (Except ε α) :=
  fun x y =>
    match x, y with
    | .ok a, .ok b =>
      if h : a = b then .isTrue (by rw [h]) else .isFalse (by simp [h])
    | .error a, .error b =>
      if h : a = b then .isTrue (by rw [h]) else .isFalse (by simp [h])
    | .ok _, .error _ => .isFalse (by simp)
    | .error _, .ok _ => .isFalse (by simp)

/-! ### PostgreSQL `ILIKE` (used by getMenuItems' search filter)

`a ILIKE p` lowercases both sides and then matches `p` as a `LIKE`
pattern: `%` matches any sequence, `_` any single character, `\`
escapes the following character, anything else matches literally.
The matcher takes explicit fuel (any fuel above `pattern length + text
length` is enough) so that it reduces everywhere. -/

def lowerChar (c : Char) : Char := c.toLower

def likeM : ℕ → List Char → List Char → Bool
  | _, [], t => t.isEmpty
  | 0, _ :: _, _ => false
  | fuel + 1, c :: p, t =>
    if c = '%' then
      likeM fuel p t ||
        (match t with
          | [] => false
          | _ :: t2 => likeM fuel (c :: p) t2)
    else if c = '_' then
      match t with
      | [] => false
      | _ :: t2 => likeM fuel p t2
    else if c = '\\' then
      match p with
      | [] => false
      | pc :: p2 =>
        match t with
        | [] => false
        | tc :: t2 => pc = tc && likeM fuel p2 t2
    else
      match t with
      | tc :: t2 => c = tc && likeM fuel p t2
      | [] => false

/-- `text ILIKE pattern` on whole strings. -/
def ilike (pat : String) (text : String) : Bool :=
  let p := pat.data.map lowerChar
  let t := text.data.map lowerChar
  likeM (p.length + t.length + 1) p t

/-! ### Kernel-friendly decimal rendering of integers (for qr tokens) -/

def digitChar (n : ℕ) : Char := Char.ofNat (48 + n)

def natDigits : ℕ → ℕ → List Char
  | 0, _ => []
  | fuel + 1, n =>
    if n < 10 then [digitChar n] else natDigits fuel (n / 10) ++ [digitChar (n % 10)]

def intToString (i : ℤ) : String :=
  if i < 0 then "-" ++ String.mk (natDigits 40 (-i).toNat)
  else String.mk (natDigits 40 i.toNat)

/-! ### Catalog handlers -/

structure CreateCategoryInput where
  name : String
  description : Option String
deriving DecidableEq, Repr

/-- handlers/create_category: plain insert, no uniqueness check. -/
def createCategory (st : Store) (input : CreateCategoryInput) (now : ℤ) :
    Store × Category :=
  let c : Category := ⟨st.nextCategoryId, input.name, input.description, now⟩
  ({ st with categories := st.categories ++ [c],
             nextCategoryId := st.nextCategoryId + 1 }, c)

structure CreateMenuItemInput where
  name : String
  description : Option String
  price : ℤ
  category_id : ℤ
  image_url : Option String
  is_available : Bool
deriving DecidableEq, Repr

/-- handlers/create_menu_item.ts: insert; the store's foreign key makes
the insert fail when category_id references no Category. -/
def createMenuItem (st : Store) (input : CreateMenuItemInput) (now : ℤ) :
    Except AppError (Store × MenuItem) :=
  if (st.categories.find? (fun c => c.id == input.category_id)).isSome then
    let m : MenuItem := ⟨st.nextMenuItemId, input.name, input.description,
      input.price, input.category_id, input.image_url, input.is_available, now⟩
    .ok ({ st with menuItems := st.menuItems ++ [m],
                   nextMenuItemId := st.nextMenuItemId + 1 }, m)
  else .error .constraintViolation

/-- updateMenuItem's zod input: an inner `none` on description/image_url
is an explicit null; an outer `none` means the field is absent from the
request (`!== undefined` in the handler). -/
structure UpdateMenuItemInput where
  id : ℤ
  name : Option String
  description : Option (Option String)
  price : Option ℤ
  category_id : Option ℤ
  image_url : Option (Option String)
  is_available : Option Bool
deriving DecidableEq, Repr

/-- The `updateData` object of update_menu_item.ts applied to one row:
only fields present in the request are overwritten. -/
def applyMenuItemUpdate (input : UpdateMenuItemInput) (m : MenuItem) : MenuItem :=
  { m with
    name := input.name.getD m.name
    description := input.description.getD m.description
    price := input.price.getD m.price
    category_id := input.category_id.getD m.category_id
    image_url := input.image_url.getD m.image_url
    is_available := input.is_available.getD m.is_available }

/-- handlers/update_menu_item.ts: run the update (the foreign key on a
supplied category_id is checked by the store only when at least one row
matches), then report NotFound when no row matched. -/
def updateMenuItem (st : Store) (input : UpdateMenuItemInput) :
    Except AppError (Store × MenuItem) :=
  match st.menuItems.find? (fun m => m.id == input.id) with
  | none => .error .notFound
  | some m0 =>
    let fkOk : Bool :=
      match input.category_id with
      | none => true
      | some cid => (st.categories.find? (fun c => c.id == cid)).isSome
    if fkOk then
      .ok ({ st with
              menuItems := updateWhere (fun m => m.id == input.id)
                (applyMenuItemUpdate input) st.menuItems },
           applyMenuItemUpdate input m0)
    else .error .constraintViolation

/-- getMenuItems' zod filter: `available_only` carries the zod default
`true` when absent from a supplied filter object. -/
structure MenuFilter where
  category_id : Option ℤ
  search : Option String
  min_price : Option ℤ
  max_price : Option ℤ
  available_only : Bool
deriving DecidableEq, Repr

/-- The WHERE conditions built by handlers/get_menu_items (part_008):
a conjunction over the filters supplied; the search condition is
skipped for an empty string (JavaScript truthiness) and matches
name OR description with ILIKE; a missing filter object defaults to
available-only. -/
def menuConds (filter : Option MenuFilter) (m : MenuItem) : Bool :=
  match filter with
  | none => m.is_available
  | some f =>
    (match f.category_id with
      | some cid => m.category_id == cid
      | none => true) &&
    (match f.search with
      | some s =>
        if s = "" then true
        else
          ilike ("%" ++ s ++ "%") m.name ||
            (match m.description with
              | some d => ilike ("%" ++ s ++ "%") d
              | none => false)
      | none => true) &&
    (match f.min_price with
      | some p => decide (p ≤ m.price)
      | none => true) &&
    (match f.max_price with
      | some p => decide (m.price ≤ p)
      | none => true) &&
    (if f.available_only then m.is_available else true)

/-- handlers/get_menu_items (part_008): filter menu items and inner-join
each with its owning category.  (The handler additionally converts the
numeric price for display; rows are returned as stored.) -/
def getMenuItems (st : Store) (filter : Option MenuFilter) :
    List (MenuItem × Category) :=
  (st.menuItems.filter (menuConds filter)).filterMap fun m =>
    (st.categories.find? (fun c => c.id == m.category_id)).map fun c => (m, c)

/-! ### Cart handler -/

structure AddToCartInput where
  session_id : String
  menu_item_id : ℤ
  quantity : ℤ
deriving DecidableEq, Repr

/-- handlers/add_to_cart (in get_orders.ts): check the menu item exists
and is available; merge into an existing (session, menu item) row by
incrementing its quantity, otherwise insert a new row. -/
def addToCart (st : Store) (input : AddToCartInput) (now : ℤ) :
    Except AppError (Store × CartItem) :=
  match st.menuItems.find? (fun m => m.id == input.menu_item_id) with
  | none => .error .notFound
  | some m =>
    if !m.is_available then .error .unavailable
    else
      match st.cartItems.find? (fun c =>
          c.session_id == input.session_id &&
          c.menu_item_id == input.menu_item_id) with
      | some existing =>
        let upd := fun c : CartItem =>
          { c with quantity := existing.quantity + input.quantity }
        let cartItems2 := updateWhere (fun c => c.id == existing.id) upd st.cartItems
        let ret := (cartItems2.find? (fun c => c.id == existing.id)).getD (upd existing)
        .ok ({ st with cartItems := cartItems2 }, ret)
      | none =>
        let c : CartItem := ⟨st.nextCartItemId, input.session_id,
          input.menu_item_id, input.quantity, now⟩
        .ok ({ st with cartItems := st.cartItems ++ [c],
                       nextCartItemId := st.nextCartItemId + 1 }, c)

/-! ### Order handlers -/

structure CreateOrderInput where
  session_id : String
  customer_name : String
  customer_phone : Option String
  customer_email : Option String
  notes : Option String
deriving DecidableEq, Repr

/-- Step 1 of createOrder (part_004): the session's cart items
inner-joined with their menu items. -/
def cartLines (st : Store) (sid : String) : List (CartItem × MenuItem) :=
  (st.cartItems.filter (fun c => c.session_id == sid)).filterMap fun c =>
    (st.menuItems.find? (fun m => m.id == c.menu_item_id)).map fun m => (c, m)

/-- Step 2 of createOrder (part_004, lines 395-400): JavaScript
accumulation `totalAmount += parseFloat(price) * quantity` over the cart
lines, starting from the double 0 — binary64 arithmetic, one rounding
per operation.  Inputs are (price in cents, quantity) pairs. -/
def computeOrderTotal (lines : List (ℤ × ℤ)) : Frac :=
  lines.foldl
    (fun acc l => jsAdd acc (jsMul (jsParseCents l.1) (Frac.ofInt l.2)))
    (Frac.ofInt 0)

/-- The Order row inserted by step 3 of createOrder: status and
payment_status take their column defaults, total_amount is the computed
double as persisted by the numeric(10,2) column. -/
def newOrderRow (st : Store) (input : CreateOrderInput) (now total : ℤ) : Order :=
  ⟨st.nextOrderId, input.customer_name, input.customer_phone,
   input.customer_email, total, .pending, .pending, none, none, input.notes,
   now, now⟩

/-- The OrderItem rows inserted by step 4 of createOrder: quantity is
copied from the cart row and price_at_time snapshots the menu item's
current price (the numeric string is inserted verbatim); serial ids are
allocated in insertion order. -/
def newOrderItemRows (nextId orderId now : ℤ) :
    List (CartItem × MenuItem) → List OrderItem
  | [] => []
  | l :: rest =>
    ⟨nextId, orderId, l.1.menu_item_id, l.1.quantity, l.2.price, now⟩ ::
      newOrderItemRows (nextId + 1) orderId now rest

/-- createOrder (part_004, lines 382-479) runs its writes as three
separate store statements with no surrounding transaction:
(1) insert the Order, (2) insert the OrderItems, (3) delete the
session's cart.  `createOrderCommitted st input now k` is the store
state left behind when execution stops (failure / crash) after the
first `k` write statements have committed; `k ≥ 3` is the completed
run.  With an empty cart the handler throws before any write. -/
def createOrderCommitted (st : Store) (input : CreateOrderInput) (now : ℤ)
    (k : ℕ) : Store :=
  let lines := cartLines st input.session_id
  if lines.isEmpty then st
  else
    let total : ℤ :=
      round2cents (computeOrderTotal (lines.map fun l => (l.2.price, l.1.quantity)))
    let order := newOrderRow st input now total
    let st1 := { st with orders := st.orders ++ [order],
                         nextOrderId := st.nextOrderId + 1 }
    let items := newOrderItemRows st.nextOrderItemId order.id now lines
    let st2 := { st1 with orderItems := st1.orderItems ++ items,
                          nextOrderItemId := st.nextOrderItemId + lines.length }
    let st3 := { st2 with
                 cartItems := st2.cartItems.filter
                   (fun c => !(c.session_id == input.session_id)) }
    match k with
    | 0 => st
    | 1 => st1
    | 2 => st2
    | _ + 3 => st3

/-- createOrder (part_004): the full successful run, returning the final
store with the inserted Order row and OrderItem rows.  (The handler
additionally re-fetches the items joined with menu items and converts
numerics for display; rows are returned as stored.) -/
def createOrder (st : Store) (input : CreateOrderInput) (now : ℤ) :
    Except AppError (Store × Order × List OrderItem) :=
  let lines := cartLines st input.session_id
  if lines.isEmpty then .error .emptyCart
  else
    let total : ℤ :=
      round2cents (computeOrderTotal (lines.map fun l => (l.2.price, l.1.quantity)))
    let order := newOrderRow st input now total
    let items := newOrderItemRows st.nextOrderItemId order.id now lines
    .ok (createOrderCommitted st input now 3, order, items)

/-- handlers/get_order (in create_menu_item.ts): the order row with its
items inner-joined with menu items; null when the id does not exist. -/
def getOrder (st : Store) (orderId : ℤ) :
    Option (Order × List (OrderItem × MenuItem)) :=
  (st.orders.find? (fun o => o.id == orderId)).map fun o =>
    (o, (st.orderItems.filter (fun i => i.order_id == orderId)).filterMap fun i =>
          (st.menuItems.find? (fun m => m.id == i.menu_item_id)).map fun m => (i, m))

/-! ### Payment handlers -/

structure CreatePaymentInput where
  order_id : ℤ
  payment_gateway : String
  amount : ℤ
deriving DecidableEq, Repr

/-- handlers/create_payment.ts: NotFound when the order does not exist,
InvalidState for a cancelled/completed order, AlreadyPaid when the
order's payment_status is paid; otherwise insert one pending Payment
with a qr token `payment_<gateway>_<order>_<now>` and a 15-minute
expiry. -/
def createPayment (st : Store) (input : CreatePaymentInput) (now : ℤ) :
    Except AppError (Store × Payment) :=
  match st.orders.find? (fun o => o.id == input.order_id) with
  | none => .error .notFound
  | some o =>
    if o.status = .cancelled ∨ o.status = .completed then .error .invalidState
    else if o.payment_status = .paid then .error .alreadyPaid
    else
      let qr := "payment_" ++ input.payment_gateway ++ "_" ++
        intToString input.order_id ++ "_" ++ intToString now
      let p : Payment := ⟨st.nextPaymentId, input.order_id,
        input.payment_gateway, qr, none, input.amount, .pending, none,
        some (now + 15 * 60 * 1000), none, now, now⟩
      .ok ({ st with payments := st.payments ++ [p],
                     nextPaymentId := st.nextPaymentId + 1 }, p)

/-- updatePaymentStatus' input: outer `none` on gateway_reference /
paid_at means the field is absent (`!== undefined` in the handler). -/
structure UpdatePaymentStatusInput where
  id : ℤ
  status : PayStatus
  gateway_reference : Option (Option String)
  paid_at : Option (Option ℤ)
deriving DecidableEq, Repr

/-- The `updateValues` row transform of update_payment_status
(part_009): set status, refresh updated_at, and overwrite
gateway_reference / paid_at only when they were supplied. -/
def updStatusRow (input : UpdatePaymentStatusInput) (now : ℤ)
    (p : Payment) : Payment :=
  { p with status := input.status, updated_at := now,
           gateway_reference := input.gateway_reference.getD p.gateway_reference,
           paid_at := input.paid_at.getD p.paid_at }

/-- The order-side write of update_payment_status: payment_status paid,
updated_at refreshed. -/
def setOrderPaid (now : ℤ) (o : Order) : Order :=
  { o with payment_status := .paid, updated_at := now }

/-- handlers/update_payment_status (part_009): NotFound when the payment
does not exist; otherwise set status (plus gateway_reference / paid_at
when supplied) and refresh updated_at; when the new status is paid, also
mark the owning order's payment_status paid. -/
def updatePaymentStatus (st : Store) (input : UpdatePaymentStatusInput)
    (now : ℤ) : Except AppError (Store × Payment) :=
  match st.payments.find? (fun p => p.id == input.id) with
  | none => .error .notFound
  | some p0 =>
    let payments2 :=
      updateWhere (fun p => p.id == input.id) (updStatusRow input now) st.payments
    let updatedPayment :=
      (payments2.find? (fun p => p.id == input.id)).getD (updStatusRow input now p0)
    let st2 := { st with payments := payments2 }
    let st3 :=
      if input.status = .paid then
        { st2 with
          orders := updateWhere (fun o => o.id == updatedPayment.order_id)
            (setOrderPaid now) st2.orders }
      else st2
    .ok (st3, updatedPayment)

/-- The JavaScript guard `payment.expires_at && new Date() > payment.expires_at`:
a null expires_at is falsy, a Date is compared strictly. -/
def isExpiredAt (expires : Option ℤ) (now : ℤ) : Bool :=
  match expires with
  | some t => decide (t < now)
  | none => false

/-- simulateGatewayStatusCheck (part_006, lines 96-119): expiry is
checked FIRST (`new Date() > expires_at`, strict); only then terminal
statuses are returned unchanged; a pending payment turns paid when the
random draw is below 0.3; the `< 0.05` failed branch is tested after
the `< 0.3` branch. -/
def simulateGatewayStatusCheck (p : Payment) (now : ℤ) (rand : Frac) : PayStatus :=
  if isExpiredAt p.expires_at now then .expired
  else if p.status = .paid ∨ p.status = .failed ∨ p.status = .expired then p.status
  else if Frac.flt rand ⟨3, 10⟩ then .paid
  else if Frac.flt rand ⟨1, 20⟩ then .failed
  else p.status

/-- The row transform persisted by checkPaymentStatus when the gateway
reports a changed status `g`: set it, refresh updated_at, and stamp
paid_at on a transition into paid. -/
def gatewayUpdRow (g : PayStatus) (old : Payment) (now : ℤ) (q : Payment) : Payment :=
  { q with status := g, updated_at := now,
           paid_at := if g = .paid ∧ old.status ≠ .paid then some now
                      else q.paid_at }

/-- checkPaymentStatus (part_006, lines 43-93): none when the payment
does not exist; otherwise consult the simulated gateway and persist the
status when it changed, stamping paid_at on a transition to paid.  The
owning order is not touched. -/
def checkPaymentStatus (st : Store) (paymentId : ℤ) (now : ℤ) (rand : Frac) :
    Option (Store × Payment) :=
  match st.payments.find? (fun p => p.id == paymentId) with
  | none => none
  | some p =>
    let g := simulateGatewayStatusCheck p now rand
    if g = p.status then some (st, p)
    else
      let payments2 :=
        updateWhere (fun q => q.id == paymentId) (gatewayUpdRow g p now) st.payments
      let p2 :=
        (payments2.find? (fun q => q.id == paymentId)).getD (gatewayUpdRow g p now p)
      some ({ st with payments := payments2 }, p2)

/-! ## Fixtures for the claim theorems -/

/-! ### C1 — createOrder atomicity -/

/-- A store holding one category, one available menu item priced 10.00,
and one cart row (session "s", quantity 2): a minimal non-empty cart on
which createOrder proceeds to its writes. -/
def c1Store : Store :=
  { emptyStore with
    categories := [⟨1, "Cat", none, 0⟩]
    menuItems := [⟨1, "Item", none, 1000, 1, none, true, 0⟩]
    cartItems := [⟨1, "s", 1, 2, 0⟩]
    nextCategoryId := 2, nextMenuItemId := 2, nextCartItemId := 2 }

def c1Input : CreateOrderInput := ⟨"s", "Alice", none, none, none⟩

/-! ### C2 — cross-entity payment invariant -/

/-- A reachable scenario built from the empty store through the actual
handlers: create a category, a menu item, a cart row, an order and a
payment, then run checkPaymentStatus with a random draw of 0.1 (below
the 0.3 paid threshold).  Returns the payment's final status and the
owning order's final payment_status. -/
def c2Scenario : Option (PayStatus × Option OrderPayStatus) :=
  let r1 := createCategory emptyStore ⟨"Cat", none⟩ 0
  match createMenuItem r1.1 ⟨"Item", none, 1000, 1, none, true⟩ 0 with
  | .error _ => none
  | .ok (st2, _) =>
  match addToCart st2 ⟨"s", 1, 1⟩ 0 with
  | .error _ => none
  | .ok (st3, _) =>
  match createOrder st3 ⟨"s", "Alice", none, none, none⟩ 0 with
  | .error _ => none
  | .ok (st4, _, _) =>
  match createPayment st4 ⟨1, "gw", 1000⟩ 0 with
  | .error _ => none
  | .ok (st5, _) =>
  match checkPaymentStatus st5 1 1000 ⟨1, 10⟩ with
  | none => none
  | some (st6, p2) =>
    some (p2.status,
      (st6.orders.find? (fun o => o.id == p2.order_id)).map
        (fun o => o.payment_status))

def c2wStore : Store :=
  { emptyStore with
    orders := [⟨1, "A", none, none, 1000, .pending, .pending, none, none, none, 0, 0⟩]
    payments := [⟨1, 1, "gw", "qr", none, 1000, .pending, none, none, none, 0, 0⟩]
    nextOrderId := 2, nextPaymentId := 2 }

def c2wInput : UpdatePaymentStatusInput := ⟨1, .paid, some (some "r"), some (some 9)⟩

def c2wOutStore : Store :=
  { emptyStore with
    orders := [⟨1, "A", none, none, 1000, .pending, .paid, none, none, none, 0, 7⟩]
    payments := [⟨1, 1, "gw", "qr", none, 1000, .paid, some "r", none, some 9, 0, 7⟩]
    nextOrderId := 2, nextPaymentId := 2 }

def c2wPay : Payment := ⟨1, 1, "gw", "qr", none, 1000, .paid, some "r", none, some 9, 0, 7⟩

/-! ### C3 — terminal payment statuses -/

/-- A store holding a payment whose status is already terminal ('paid')
with an expires_at (1000) in the past of the query instant (2000). -/
def c3Store : Store :=
  { emptyStore with
    orders := [⟨1, "Alice", none, none, 1000, .pending, .paid, none, none, none, 0, 0⟩]
    payments := [⟨1, 1, "gw", "qr", none, 1000, .paid, none, some 1000, some 500, 0, 0⟩]
    nextOrderId := 2, nextPaymentId := 2 }

/-- A store whose session "s" cart holds Item A (price 10.50, qty 2)
and Item B (price 15.00, qty 1) — the claim's example cart. -/
def c5Store : Store :=
  { emptyStore with
    categories := [⟨1, "Cat", none, 0⟩]
    menuItems := [⟨1, "Item A", none, 1050, 1, none, true, 0⟩,
                  ⟨2, "Item B", none, 1500, 1, none, true, 0⟩]
    cartItems := [⟨1, "s", 1, 2, 0⟩, ⟨2, "s", 2, 1, 0⟩]
    nextCategoryId := 2, nextMenuItemId := 3, nextCartItemId := 3 }

def c5Input : CreateOrderInput := ⟨"s", "Alice", none, none, none⟩

/-- A payable order: pending status, pending payment_status. -/
def c6Store : Store :=
  { emptyStore with
    orders := [⟨1, "A", none, none, 1000, .pending, .pending, none, none, none, 0, 0⟩]
    nextOrderId := 2 }

/-- A pending payment with a future expiry, queried with a draw of 0.1:
the witness instance for C10. -/
def c10Store : Store :=
  { emptyStore with
    orders := [⟨1, "A", none, none, 1000, .pending, .pending, none, none, none, 0, 0⟩]
    payments := [⟨1, 1, "gw", "qr", none, 1000, .pending, none, some 900000, none, 0, 0⟩]
    nextOrderId := 2, nextPaymentId := 2 }

def c10OutPay : Payment :=
  ⟨1, 1, "gw", "qr", none, 1000, .paid, none, some 900000, some 1000, 0, 1000⟩

def c10OutStore : Store := { c10Store with payments := [c10OutPay] }

/-! ### C4 — cart merge -/

/-- A store with one available menu item and an empty cart, for the
claim's add-2-then-add-3 example. -/
def c4Store : Store :=
  { emptyStore with
    categories := [⟨1, "Cat", none, 0⟩]
    menuItems := [⟨1, "Item", none, 1000, 1, none, true, 0⟩]
    nextCategoryId := 2, nextMenuItemId := 2 }

/-- addToCart(s, 1, 2) at t=10 then addToCart(s, 1, 3) at t=20 on
`c4Store`; yields the final rows for the (session, item) pair and the
two returned rows. -/
def c4Run : Option (List CartItem × CartItem × CartItem) :=
  match addToCart c4Store ⟨"s", 1, 2⟩ 10 with
  | .error _ => none
  | .ok (st1, r1) =>
    match addToCart st1 ⟨"s", 1, 3⟩ 20 with
    | .error _ => none
    | .ok (st2, r2) =>
      some (st2.cartItems.filter
              (fun x => x.session_id == "s" && x.menu_item_id == 1), r1, r2)

/-- The pre-existing cart row for the C4 witness. -/
def c4wStore : Store :=
  { c4Store with cartItems := [⟨1, "s", 1, 2, 10⟩], nextCartItemId := 2 }

/-- The C7 witness scenario: an order is created from a cart holding the
10.50 item with quantity 2, and the item's price is then changed to
99.00. -/
def c7Store : Store :=
  { emptyStore with
    categories := [⟨1, "Cat", none, 0⟩]
    menuItems := [⟨1, "Item", none, 1050, 1, none, true, 0⟩]
    cartItems := [⟨1, "s", 1, 2, 0⟩]
    nextCategoryId := 2, nextMenuItemId := 2, nextCartItemId := 2 }

/-- The store committed by `createOrder c7Store` at t = 5. -/
def c7MidStore : Store :=
  { c7Store with
    cartItems := []
    orders := [⟨1, "Alice", none, none, 2100, .pending, .pending, none, none,
                none, 5, 5⟩]
    orderItems := [⟨1, 1, 1, 2, 1050, 5⟩]
    nextOrderId := 2, nextOrderItemId := 2 }

/-- `c7MidStore` after updateMenuItem sets the item's price to 99.00. -/
def c7UpdStore : Store :=
  { c7MidStore with menuItems := [⟨1, "Item", none, 9900, 1, none, true, 0⟩] }

def c7UpdInput : UpdateMenuItemInput := ⟨1, none, none, some 9900, none, none, none⟩

/-- A store with one category and one fully populated menu item, for
the C9 witness. -/
def c9Store : Store :=
  { emptyStore with
    categories := [⟨1, "Cat", none, 0⟩]
    menuItems := [⟨1, "Old", some "desc", 1000, 1, some "url", true, 0⟩]
    nextCategoryId := 2, nextMenuItemId := 2 }

/-- A request carrying a new name, an explicit null description, a new
availability, and no other fields. -/
def c9Input : UpdateMenuItemInput := ⟨1, some "New", some none, none, none, none, some false⟩

/-! ### C8 — getMenuItems filter composition

The spec reads the search filter as a case-insensitive SUBSTRING match.
The code runs `ILIKE '%' || term || '%'`, which treats `%`, `_` and `\`
in the term as pattern syntax; the two notions coincide exactly for
terms free of those characters. -/

/-- Plain character-list matching: the needle matches at the start of
the hay (character by character). -/
def charSeg : List Char → List Char → Bool
  | [], _ => true
  | _ :: _, [] => false
  | a :: as, b :: bs => a = b && charSeg as bs

/-- Plain substring check: the needle occurs contiguously in the hay. -/
def charSub (n : List Char) : List Char → Bool
  | [] => n.isEmpty
  | b :: hs => charSeg n (b :: hs) || charSub n hs

/-- The spec's predicate: needle is a case-insensitive substring of
hay. -/
def isSubCI (needle hay : String) : Bool :=
  charSub (needle.data.map lowerChar) (hay.data.map lowerChar)

/-- A term with none of the LIKE pattern metacharacters. -/
def wildFree (s : List Char) : Prop :=
  ∀ c ∈ s, c ≠ '%' ∧ c ≠ '_' ∧ c ≠ '\\'

instance (s : List Char) : Decidable (wildFree s) := by
  unfold wildFree; infer_instance

/-- The spec's reading of the filter (section 4.1): a conjunction of
exact category match, case-insensitive substring search over name or
description, inclusive price bounds, and availability; a missing filter
object means available-only. -/
def specMenuPred (f : Option MenuFilter) (m : MenuItem) : Prop :=
  match f with
  | none => m.is_available = true
  | some fl =>
    (∀ cid, fl.category_id = some cid → m.category_id = cid) ∧
    (∀ s, fl.search = some s →
      (isSubCI s m.name = true ∨
        ∃ d, m.description = some d ∧ isSubCI s d = true)) ∧
    (∀ p, fl.min_price = some p → p ≤ m.price) ∧
    (∀ p, fl.max_price = some p → m.price ≤ p) ∧
    (fl.available_only = true → m.is_available = true)

/-- A store with a single available item named "Salad". -/
def c8Store : Store :=
  { emptyStore with
    categories := [⟨1, "Cat", none, 0⟩]
    menuItems := [⟨1, "Salad", none, 1299, 1, none, true, 0⟩]
    nextCategoryId := 2, nextMenuItemId := 2 }

/-- The spec's three-item catalog: Caesar Salad 12.99 available,
Grilled Chicken 18.50 available, Chocolate Cake 8.99 unavailable. -/
def c8wStore : Store :=
  { emptyStore with
    categories := [⟨1, "Cat", none, 0⟩]
    menuItems := [⟨1, "Caesar Salad", none, 1299, 1, none, true, 0⟩,
                  ⟨2, "Grilled Chicken", none, 1850, 1, none, true, 0⟩,
                  ⟨3, "Chocolate Cake", none, 899, 1, none, false, 0⟩]
    nextCategoryId := 2, nextMenuItemId := 4 }

/-! ## Claim theorems and helper lemmas -/

/-- C1: the claim demands that a createOrder failing midway commits
nothing, but the handler issues its three writes as separate statements
with no transaction.  On a session with one cart item, stopping after
the first write (the Order insert) leaves a committed ghost Order row
with zero OrderItems and the cart intact — the store is NOT unchanged.
(The EmptyCart path does fail before any write: `k = 0` of the same
model, also evaluated here.) -/
theorem createOrder_midway_failure_commits_ghost_order :
    (createOrderCommitted c1Store c1Input 5 1).orders =
      [⟨1, "Alice", none, none, 2000, .pending, .pending, none, none, none, 5, 5⟩] ∧
    (createOrderCommitted c1Store c1Input 5 1).orderItems = [] ∧
    (createOrderCommitted c1Store c1Input 5 1).cartItems = c1Store.cartItems ∧
    createOrderCommitted c1Store c1Input 5 1 ≠ c1Store ∧
    createOrderCommitted c1Store ⟨"empty", "Bob", none, none, none⟩ 5 0 = c1Store := by
  decide

/-- C2 counterexample: in a state reached from the empty store through
the handlers themselves, checkPaymentStatus sets its Payment's status to
'paid' yet leaves the owning Order's payment_status at 'pending' — so
not every operation that marks a Payment paid also marks the Order paid,
and the claimed invariant fails. -/
theorem checkPaymentStatus_pays_without_order_update :
    c2Scenario = some (.paid, some .pending) := by decide

theorem mem_updateWhere {α : Type} (p : α → Bool) (f : α → α) (l : List α)
    (x : α) :
    x ∈ updateWhere p f l ↔ ∃ y, y ∈ l ∧ x = if p y then f y else y := by
  simp only [updateWhere, List.mem_map, eq_comm]

/-- A row of an UPDATE's result that satisfies the WHERE predicate is the
transform of a matching original row (provided the transform preserves
the predicate). -/
theorem mem_updateWhere_matching {α : Type} (p : α → Bool) (f : α → α)
    (l : List α) (x : α)
    (hx : x ∈ updateWhere p f l) (hpx : p x = true) :
    ∃ y, y ∈ l ∧ p y = true ∧ x = f y := by
  rw [mem_updateWhere] at hx
  obtain ⟨y, hy, hxy⟩ := hx
  by_cases hc : p y = true
  · exact ⟨y, hy, hc, by rw [hxy, if_pos hc]⟩
  · rw [if_neg hc] at hxy
    subst hxy
    exact absurd hpx hc

/-- The row the handlers return after an UPDATE (`updatedRows[0]`,
with the pre-update row as formal fallback) is the transform of some
original row. -/
theorem getD_find?_updateWhere {α : Type} (p : α → Bool) (f : α → α)
    (l : List α) (d : α) :
    ((updateWhere p f l).find? p).getD (f d) = f d ∨
      ∃ y, y ∈ l ∧ p y = true ∧
        ((updateWhere p f l).find? p).getD (f d) = f y := by
  cases h : (updateWhere p f l).find? p with
  | none => left; rfl
  | some q =>
    right
    have hq := List.find?_some h
    have hmem := List.mem_of_find?_eq_some h
    obtain ⟨y, hy, hcy, hqy⟩ := mem_updateWhere_matching p f l q hmem hq
    exact ⟨y, hy, hcy, hqy⟩

/-- C2 (amended): updatePaymentStatus sets the payment's status as
requested, and when that status is 'paid' it also marks the owning
Order's payment_status 'paid' within the same operation, while any
non-paid status leaves the orders table untouched.  (checkPaymentStatus,
by contrast, does not propagate — see the counterexample.) -/
theorem updatePaymentStatus_paid_propagates
    (st : Store) (input : UpdatePaymentStatusInput) (now : ℤ)
    (st2 : Store) (p : Payment)
    (h : updatePaymentStatus st input now = .ok (st2, p)) :
    p.status = input.status ∧
    (∀ q ∈ st2.payments, q.id = input.id → q.status = input.status) ∧
    (input.status = .paid →
      ∀ o ∈ st2.orders, o.id = p.order_id → o.payment_status = .paid) ∧
    (input.status ≠ .paid → st2.orders = st.orders) := by
  unfold updatePaymentStatus at h
  cases hf : st.payments.find? (fun q => q.id == input.id) with
  | none => rw [hf] at h; exact absurd h (by simp)
  | some p0 =>
    rw [hf] at h
    simp only [Except.ok.injEq, Prod.mk.injEq] at h
    obtain ⟨hst, hpp⟩ := h
    subst hst
    subst hpp
    refine ⟨?_, ?_, ?_, ?_⟩
    · obtain h1 | ⟨y, hy, hcy, h1⟩ :=
        getD_find?_updateWhere (fun q => q.id == input.id)
          (updStatusRow input now) st.payments p0 <;>
        rw [h1] <;> rfl
    · intro q hq hqid
      by_cases hpaid : input.status = PayStatus.paid <;>
        simp only [hpaid, if_true, if_false, reduceIte] at hq <;>
      · obtain ⟨y, hy, hcy, hqy⟩ :=
          mem_updateWhere_matching (fun q => q.id == input.id)
            (updStatusRow input now) st.payments q hq (by simpa using hqid)
        rw [hqy]; rfl
    · intro hpaid o ho hoid
      simp only [hpaid, reduceIte] at ho
      obtain ⟨y, hy, hcy, hoy⟩ :=
        mem_updateWhere_matching _ (setOrderPaid now) _ o
          ho (by simpa using hoid)
      rw [hoy]; rfl
    · intro hpaid
      simp only [hpaid, if_false, reduceIte]

/-- Witness for the amended C2 theorem at a concrete one-payment store. -/
theorem updatePaymentStatus_paid_propagates_witness :
    c2wPay.status = c2wInput.status ∧
    (∀ q ∈ c2wOutStore.payments, q.id = c2wInput.id → q.status = c2wInput.status) ∧
    (c2wInput.status = .paid →
      ∀ o ∈ c2wOutStore.orders, o.id = c2wPay.order_id → o.payment_status = .paid) ∧
    (c2wInput.status ≠ .paid → c2wOutStore.orders = c2wStore.orders) :=
  updatePaymentStatus_paid_propagates c2wStore c2wInput 7 c2wOutStore c2wPay (by decide)

/-! ### C5 — total_amount arithmetic -/

/-- C5 counterexample: for the cart holding one line with price 10.10
and quantity 3, the value createOrder computes for total_amount
(`totalAmount += parseFloat(price) * quantity` in binary64, part_004
lines 395-400) is 8528691794332876 / 2^48 = 30.29999999999999715…,
which is NOT the exact decimal sum 30.30 — the computation drifts, so it
is not the claimed decimal-safe arithmetic. -/
theorem computeOrderTotal_floating_point_drift :
    ¬ Frac.feq (computeOrderTotal [(1010, 3)]) (Frac.ofCents 3030) ∧
    computeOrderTotal [(1010, 3)] = ⟨8528691794332876, 2 ^ 48⟩ := by
  decide

/-- C5 (amended): createOrder computes total_amount in binary64
floating point, which can drift from the exact decimal sum (see the
counterexample); the numeric(10,2) column then rounds the serialised
double to two decimals, which restores the exact sum whenever the
accumulated error stays below half a cent — in particular 10.10 × 3 is
persisted as 30.30.  On the claim's example cart (10.50 × 2 + 15.00 × 1)
every operation is exact: the computed double equals 36 exactly and the
persisted Order row carries total_amount 36.00. -/
theorem createOrder_total_amount_example_exact :
    Frac.feq (computeOrderTotal [(1050, 2), (1500, 1)]) (Frac.ofInt 36) ∧
    (createOrder c5Store c5Input 0).toOption.map (fun r => r.2.1.total_amount) =
      some 3600 ∧
    round2cents (computeOrderTotal [(1010, 3)]) = 3030 := by
  decide

/-! ### C6 — createPayment failure cases -/

/-- C6: createPayment fails with NotFound when the order does not
exist; with InvalidState when the order's status is cancelled or
completed (checked next); with AlreadyPaid when its payment_status is
already paid (checked last); and for every other existing order it
succeeds, appending exactly one Payment row with status pending. -/
theorem createPayment_checks (st : Store) (input : CreatePaymentInput) (now : ℤ) :
    (st.orders.find? (fun o => o.id == input.order_id) = none →
      createPayment st input now = .error .notFound) ∧
    (∀ o, st.orders.find? (fun o2 => o2.id == input.order_id) = some o →
      (o.status = .cancelled ∨ o.status = .completed) →
      createPayment st input now = .error .invalidState) ∧
    (∀ o, st.orders.find? (fun o2 => o2.id == input.order_id) = some o →
      ¬(o.status = .cancelled ∨ o.status = .completed) →
      o.payment_status = .paid →
      createPayment st input now = .error .alreadyPaid) ∧
    (∀ o, st.orders.find? (fun o2 => o2.id == input.order_id) = some o →
      ¬(o.status = .cancelled ∨ o.status = .completed) →
      o.payment_status ≠ .paid →
      ∃ p2, createPayment st input now =
          .ok ({ st with payments := st.payments ++ [p2],
                         nextPaymentId := st.nextPaymentId + 1 }, p2) ∧
        p2.status = .pending ∧ p2.order_id = input.order_id ∧
        p2.amount = input.amount ∧ p2.expires_at = some (now + 15 * 60 * 1000)) := by
  refine ⟨?_, ?_, ?_, ?_⟩
  · intro hf; unfold createPayment; rw [hf]
  · intro o hf hterm; unfold createPayment; rw [hf]
    simp only [if_pos hterm]
  · intro o hf hterm hpaid; unfold createPayment; rw [hf]
    simp only [if_neg hterm, if_pos hpaid]
  · intro o hf hterm hpaid; unfold createPayment; rw [hf]
    simp only [if_neg hterm, if_neg hpaid]
    exact ⟨_, rfl, rfl, rfl, rfl, rfl⟩

/-- Witness for C6 at a concrete payable order: the success branch. -/
theorem createPayment_checks_witness :
    ∃ p2, createPayment c6Store ⟨1, "gw", 1000⟩ 5 =
        .ok ({ c6Store with payments := c6Store.payments ++ [p2],
                            nextPaymentId := c6Store.nextPaymentId + 1 }, p2) ∧
      p2.status = .pending ∧ p2.order_id = (1 : ℤ) ∧
      p2.amount = (1000 : ℤ) ∧ p2.expires_at = some (5 + 15 * 60 * 1000) :=
  (createPayment_checks c6Store ⟨1, "gw", 1000⟩ 5).2.2.2
    ⟨1, "A", none, none, 1000, .pending, .pending, none, none, none, 0, 0⟩
    (by decide) (by decide) (by decide)

/-! ### C10 — the failed branch is unreachable -/

/-- The simulated gateway never reports 'failed' when the stored status
is not already 'failed': the `< 0.05` branch sits after the `< 0.3`
branch, so every draw below 0.05 has already returned 'paid'. -/
theorem simulateGateway_never_failed (p : Payment) (now : ℤ) (rand : Frac)
    (hrand : 0 ≤ rand.n ∧ rand.n < rand.d)
    (hst : p.status ≠ .failed) :
    simulateGatewayStatusCheck p now rand ≠ .failed := by
  unfold simulateGatewayStatusCheck
  split
  · simp
  · split
    · exact hst
    · split
      · simp
      · split
        · rename_i hnot30 h05
          exfalso
          simp only [Frac.flt, not_lt] at hnot30 h05
          omega
        · exact hst

/-- C10: for every payment whose stored status is not 'failed' and
every oracle value in [0,1), checkPaymentStatus neither returns nor
persists status 'failed'; from 'pending' only 'pending', 'paid' or
'expired' are reachable. -/
theorem checkPaymentStatus_never_fails
    (st : Store) (pid now : ℤ) (rand : Frac) (p : Payment)
    (st2 : Store) (p2 : Payment)
    (hrand : 0 ≤ rand.n ∧ rand.n < rand.d)
    (hf : st.payments.find? (fun q => q.id == pid) = some p)
    (hst : p.status ≠ .failed)
    (h : checkPaymentStatus st pid now rand = some (st2, p2)) :
    p2.status ≠ .failed ∧
    (∀ q ∈ st2.payments, q.status = .failed → q ∈ st.payments) ∧
    (p.status = .pending →
      p2.status = .pending ∨ p2.status = .paid ∨ p2.status = .expired) := by
  have hg := simulateGateway_never_failed p now rand hrand hst
  have hgp : p.status = .pending →
      simulateGatewayStatusCheck p now rand = .pending ∨
      simulateGatewayStatusCheck p now rand = .paid ∨
      simulateGatewayStatusCheck p now rand = .expired := by
    intro hpend
    unfold simulateGatewayStatusCheck
    split
    · right; right; rfl
    · split
      · exact Or.inl hpend
      · split
        · right; left; rfl
        · split
          · rename_i hnot30 h05
            exfalso
            simp only [Frac.flt, not_lt] at hnot30 h05
            omega
          · exact Or.inl hpend
  unfold checkPaymentStatus at h
  rw [hf] at h
  simp only [] at h
  by_cases heq : simulateGatewayStatusCheck p now rand = p.status
  · rw [if_pos heq] at h
    simp only [Option.some.injEq, Prod.mk.injEq] at h
    obtain ⟨h1, h2⟩ := h
    subst h1
    subst h2
    refine ⟨hst, fun q hq _ => hq, fun hpend => ?_⟩
    rw [hpend]
    exact Or.inl rfl
  · rw [if_neg heq] at h
    simp only [Option.some.injEq, Prod.mk.injEq] at h
    obtain ⟨h1, h2⟩ := h
    subst h1
    subst h2
    have hret :
        ∀ z, (((updateWhere (fun q => q.id == pid)
            (gatewayUpdRow (simulateGatewayStatusCheck p now rand) p now)
            st.payments).find? (fun q => q.id == pid)).getD
            (gatewayUpdRow (simulateGatewayStatusCheck p now rand) p now z)).status =
          simulateGatewayStatusCheck p now rand := by
      intro z
      obtain h1 | ⟨y, hy, hcy, h1⟩ :=
        getD_find?_updateWhere (fun q => q.id == pid)
          (gatewayUpdRow (simulateGatewayStatusCheck p now rand) p now)
          st.payments z <;>
        rw [h1] <;> rfl
    refine ⟨?_, ?_, ?_⟩
    · rw [hret p]; exact hg
    · intro q hq hqfail
      rw [mem_updateWhere] at hq
      obtain ⟨y, hy, hqy⟩ := hq
      by_cases hc : (y.id == pid) = true
      · rw [if_pos hc] at hqy
        subst hqy
        exact absurd hqfail (by simpa [gatewayUpdRow] using hg)
      · rw [if_neg hc] at hqy
        subst hqy
        exact hy
    · intro hpend
      rw [hret p]
      obtain hcase | hcase | hcase := hgp hpend
      · exact Or.inl hcase
      · exact Or.inr (Or.inl hcase)
      · exact Or.inr (Or.inr hcase)

/-- Witness for C10: the draw 0.1 turns the pending payment paid —
never failed. -/
theorem checkPaymentStatus_never_fails_witness :
    c10OutPay.status ≠ .failed ∧
    (∀ q ∈ c10OutStore.payments, q.status = .failed → q ∈ c10Store.payments) ∧
    ((⟨1, 1, "gw", "qr", none, 1000, .pending, none, some 900000, none, 0, 0⟩ :
        Payment).status = .pending →
      c10OutPay.status = .pending ∨ c10OutPay.status = .paid ∨
        c10OutPay.status = .expired) :=
  checkPaymentStatus_never_fails c10Store 1 1000 ⟨1, 10⟩
    ⟨1, 1, "gw", "qr", none, 1000, .pending, none, some 900000, none, 0, 0⟩
    c10OutStore c10OutPay (by decide) (by decide) (by decide) (by decide)

/-- C3: the claim (and the gateway simulation's own comment) says a
terminal payment is returned unchanged, but simulateGatewayStatusCheck
tests expiry before the terminal-status guard: on a 'paid' payment whose
expires_at has passed, checkPaymentStatus returns 'expired' and persists
the overwrite of the terminal 'paid' status. -/
theorem checkPaymentStatus_expires_terminal_paid :
    (checkPaymentStatus c3Store 1 2000 ⟨1, 2⟩).map (fun r => r.2.status) =
      some .expired ∧
    (checkPaymentStatus c3Store 1 2000 ⟨1, 2⟩).map
        (fun r => r.1.payments.map (fun q => q.status)) = some [.expired] := by
  decide

/-- C4: when a CartItem for (session_id, menu_item_id) already exists
(and ids are unique, as the serial primary key guarantees), addToCart
increments that row's quantity and returns it with its original id and
created_at, adding no row; when none exists it appends a fresh row.  In
particular add 2 then add 3 leaves exactly one row with quantity 5 and
the id/created_at from the first call. -/
theorem addToCart_merges_existing
    (st : Store) (input : AddToCartInput) (now : ℤ) (m : MenuItem)
    (hm : st.menuItems.find? (fun x => x.id == input.menu_item_id) = some m)
    (hav : m.is_available = true) :
    (∀ c, st.cartItems.find? (fun x => x.session_id == input.session_id &&
        x.menu_item_id == input.menu_item_id) = some c →
      (∀ y ∈ st.cartItems, y.id = c.id → y = c) →
      ∃ st2 ret, addToCart st input now = .ok (st2, ret) ∧
        ret.id = c.id ∧ ret.created_at = c.created_at ∧
        ret.session_id = c.session_id ∧ ret.menu_item_id = c.menu_item_id ∧
        ret.quantity = c.quantity + input.quantity ∧
        st2.cartItems.length = st.cartItems.length ∧
        ret ∈ st2.cartItems ∧
        (∀ y ∈ st.cartItems, y.id ≠ c.id → y ∈ st2.cartItems)) ∧
    (st.cartItems.find? (fun x => x.session_id == input.session_id &&
        x.menu_item_id == input.menu_item_id) = none →
      ∃ st2 ret, addToCart st input now = .ok (st2, ret) ∧
        st2.cartItems = st.cartItems ++ [ret] ∧
        ret.session_id = input.session_id ∧
        ret.menu_item_id = input.menu_item_id ∧
        ret.quantity = input.quantity ∧ ret.created_at = now) ∧
    c4Run = some ([⟨1, "s", 1, 5, 10⟩], ⟨1, "s", 1, 2, 10⟩, ⟨1, "s", 1, 5, 10⟩) := by
  refine ⟨?_, ?_, by decide⟩
  · intro c hc huniq
    have hmem : c ∈ st.cartItems := List.mem_of_find?_eq_some hc
    have hret :
        (((updateWhere (fun x => x.id == c.id)
            (fun x => { x with quantity := c.quantity + input.quantity })
            st.cartItems).find? (fun x => x.id == c.id)).getD
          { c with quantity := c.quantity + input.quantity }) =
        { c with quantity := c.quantity + input.quantity } := by
      obtain h1 | ⟨y, hy, hcy, h1⟩ :=
        getD_find?_updateWhere (fun x => x.id == c.id)
          (fun x => { x with quantity := c.quantity + input.quantity })
          st.cartItems c
      · exact h1
      · rw [h1, huniq y hy (by simpa using hcy)]
    have hrun : addToCart st input now =
        .ok ({ st with
                cartItems := updateWhere (fun x => x.id == c.id)
                  (fun x => { x with quantity := c.quantity + input.quantity })
                  st.cartItems },
             { c with quantity := c.quantity + input.quantity }) := by
      unfold addToCart
      rw [hm, hc]
      simp only [hav, Bool.not_true, Bool.false_eq_true, if_false]
      rw [hret]
    refine ⟨_, _, hrun, rfl, rfl, rfl, rfl, rfl, ?_, ?_, ?_⟩
    · exact List.length_map _ _
    · rw [mem_updateWhere]
      exact ⟨c, hmem, by simp⟩
    · intro y hy hyne
      rw [mem_updateWhere]
      exact ⟨y, hy, by rw [if_neg (by simpa using hyne)]⟩
  · intro hnone
    have hrun : addToCart st input now =
        .ok ({ st with
                cartItems := st.cartItems ++
                  [⟨st.nextCartItemId, input.session_id, input.menu_item_id,
                    input.quantity, now⟩],
                nextCartItemId := st.nextCartItemId + 1 },
             ⟨st.nextCartItemId, input.session_id, input.menu_item_id,
              input.quantity, now⟩) := by
      unfold addToCart
      rw [hm, hnone]
      simp only [hav, Bool.not_true, Bool.false_eq_true, if_false]
    exact ⟨_, _, hrun, rfl, rfl, rfl, rfl, rfl⟩

/-- Witness for C4: merging quantity 3 into the existing quantity-2 row
of `c4wStore`. -/
theorem addToCart_merges_existing_witness :
    ∃ st2 ret, addToCart c4wStore ⟨"s", 1, 3⟩ 20 = .ok (st2, ret) ∧
      ret.id = (⟨1, "s", 1, 2, 10⟩ : CartItem).id ∧
      ret.created_at = (⟨1, "s", 1, 2, 10⟩ : CartItem).created_at ∧
      ret.session_id = (⟨1, "s", 1, 2, 10⟩ : CartItem).session_id ∧
      ret.menu_item_id = (⟨1, "s", 1, 2, 10⟩ : CartItem).menu_item_id ∧
      ret.quantity = (⟨1, "s", 1, 2, 10⟩ : CartItem).quantity + (3 : ℤ) ∧
      st2.cartItems.length = c4wStore.cartItems.length ∧
      ret ∈ st2.cartItems ∧
      (∀ y ∈ c4wStore.cartItems, y.id ≠ (⟨1, "s", 1, 2, 10⟩ : CartItem).id →
        y ∈ st2.cartItems) :=
  (addToCart_merges_existing c4wStore ⟨"s", 1, 3⟩ 20
      ⟨1, "Item", none, 1000, 1, none, true, 0⟩ (by decide) (by decide)).1
    ⟨1, "s", 1, 2, 10⟩ (by decide) (by decide)

/-! ### C7 — order snapshot immutability -/

/-- A joined cart line comes from a cart row of the store and the first
menu-item row with the matching id. -/
theorem mem_cartLines (st : Store) (sid : String) (cm : CartItem × MenuItem)
    (h : cm ∈ cartLines st sid) :
    cm.1 ∈ st.cartItems ∧
    st.menuItems.find? (fun m => m.id == cm.1.menu_item_id) = some cm.2 := by
  unfold cartLines at h
  rw [List.mem_filterMap] at h
  obtain ⟨c, hc, hmap⟩ := h
  rw [List.mem_filter] at hc
  cases hfind : st.menuItems.find? (fun m => m.id == c.menu_item_id) with
  | none => rw [hfind] at hmap; exact absurd hmap (by simp)
  | some mi =>
    rw [hfind] at hmap
    simp only [Option.map_some', Option.some.injEq] at hmap
    have h1 : cm.1 = c := by rw [← hmap]
    have h2 : cm.2 = mi := by rw [← hmap]
    rw [h1, h2]
    exact ⟨hc.1, hfind⟩

/-- Every OrderItem row built by createOrder snapshots the price of the
menu item of its cart line. -/
theorem mem_newOrderItemRows (nextId orderId now : ℤ)
    (lines : List (CartItem × MenuItem)) (it : OrderItem)
    (h : it ∈ newOrderItemRows nextId orderId now lines) :
    ∃ cm ∈ lines, it.menu_item_id = cm.1.menu_item_id ∧
      it.quantity = cm.1.quantity ∧ it.price_at_time = cm.2.price ∧
      it.order_id = orderId := by
  induction lines generalizing nextId with
  | nil => exact absurd h (by simp [newOrderItemRows])
  | cons l rest ih =>
    rw [newOrderItemRows, List.mem_cons] at h
    obtain h | h := h
    · exact ⟨l, List.mem_cons_self l rest, by rw [h], by rw [h], by rw [h], by rw [h]⟩
    · obtain ⟨cm, hcm, hprops⟩ := ih _ h
      exact ⟨cm, List.mem_cons_of_mem l hcm, hprops⟩

/-- C7: an OrderItem created by createOrder carries price_at_time equal
to the price the referenced MenuItem had in the store at creation time;
and updateMenuItem (price changes included) leaves the order_items and
orders tables untouched, so existing price_at_time values and Order
total_amounts never change. -/
theorem order_snapshot_immutable :
    (∀ st input now st2 order items,
      createOrder st input now = .ok (st2, order, items) →
      ∀ it ∈ items, ∃ mi,
        st.menuItems.find? (fun x => x.id == it.menu_item_id) = some mi ∧
        it.price_at_time = mi.price) ∧
    (∀ st input st2 ret, updateMenuItem st input = .ok (st2, ret) →
      st2.orderItems = st.orderItems ∧ st2.orders = st.orders) := by
  constructor
  · intro st input now st2 order items h it hit
    unfold createOrder at h
    by_cases hemp : (cartLines st input.session_id).isEmpty
    · rw [if_pos hemp] at h; exact absurd h (by simp)
    · rw [if_neg hemp] at h
      simp only [Except.ok.injEq, Prod.mk.injEq] at h
      obtain ⟨-, -, hitems⟩ := h
      rw [← hitems] at hit
      obtain ⟨cm, hcm, h1, h2, h3, -⟩ :=
        mem_newOrderItemRows _ _ _ _ _ hit
      obtain ⟨-, hfind⟩ := mem_cartLines st input.session_id cm hcm
      exact ⟨cm.2, by rw [h1]; exact hfind, h3⟩
  · intro st input st2 ret h
    unfold updateMenuItem at h
    cases hf : st.menuItems.find? (fun m => m.id == input.id) with
    | none => rw [hf] at h; exact absurd h (by simp)
    | some m0 =>
      rw [hf] at h
      simp only [] at h
      by_cases hfk : (match input.category_id with
        | none => true
        | some cid => (st.categories.find? (fun c => c.id == cid)).isSome) = true
      · rw [if_pos hfk] at h
        simp only [Except.ok.injEq, Prod.mk.injEq] at h
        obtain ⟨hst, -⟩ := h
        rw [← hst]
        exact ⟨rfl, rfl⟩
      · rw [if_neg hfk] at h
        exact absurd h (by simp)

/-- Witness for C7: the snapshot of the 10.50 price, and the frame of
the price change to 99.00 over order_items and orders. -/
theorem order_snapshot_immutable_witness :
    (∃ mi, c7Store.menuItems.find?
        (fun x => x.id == (⟨1, 1, 1, 2, 1050, 5⟩ : OrderItem).menu_item_id) =
          some mi ∧
      (⟨1, 1, 1, 2, 1050, 5⟩ : OrderItem).price_at_time = mi.price) ∧
    (c7UpdStore.orderItems = c7MidStore.orderItems ∧
      c7UpdStore.orders = c7MidStore.orders) :=
  ⟨order_snapshot_immutable.1 c7Store ⟨"s", "Alice", none, none, none⟩ 5
      c7MidStore
      ⟨1, "Alice", none, none, 2100, .pending, .pending, none, none, none, 5, 5⟩
      [⟨1, 1, 1, 2, 1050, 5⟩] (by decide) ⟨1, 1, 1, 2, 1050, 5⟩ (by decide),
   order_snapshot_immutable.2 c7MidStore c7UpdInput c7UpdStore
      ⟨1, "Item", none, 9900, 1, none, true, 0⟩ (by decide)⟩

/-! ### C9 — partial menu-item update -/

/-- C9: updateMenuItem fails with NotFound when the id matches no row;
with ConstraintViolation when a row matches but a supplied category_id
references no Category; otherwise it succeeds, rewriting exactly the
matching rows: each supplied field (an explicit null included) takes the
supplied value and every absent field keeps its prior value, other rows
and tables untouched; the updated first matching row is returned. -/
theorem updateMenuItem_applies_present_fields
    (st : Store) (input : UpdateMenuItemInput) :
    (st.menuItems.find? (fun m => m.id == input.id) = none →
      updateMenuItem st input = .error .notFound) ∧
    (∀ m0, st.menuItems.find? (fun m => m.id == input.id) = some m0 →
      ∀ cid, input.category_id = some cid →
      st.categories.find? (fun c => c.id == cid) = none →
      updateMenuItem st input = .error .constraintViolation) ∧
    (∀ m0, st.menuItems.find? (fun m => m.id == input.id) = some m0 →
      (input.category_id = none ∨
        ∃ cid cc, input.category_id = some cid ∧
          st.categories.find? (fun c => c.id == cid) = some cc) →
      ∃ st2 ret, updateMenuItem st input = .ok (st2, ret) ∧
        st2.menuItems.length = st.menuItems.length ∧
        st2.orders = st.orders ∧ st2.orderItems = st.orderItems ∧
        (∀ y ∈ st.menuItems, y.id ≠ input.id → y ∈ st2.menuItems) ∧
        (∀ y ∈ st.menuItems, y.id = input.id →
          ∃ y2 ∈ st2.menuItems, y2.id = y.id ∧ y2.created_at = y.created_at ∧
            y2.name = input.name.getD y.name ∧
            y2.description = input.description.getD y.description ∧
            y2.price = input.price.getD y.price ∧
            y2.category_id = input.category_id.getD y.category_id ∧
            y2.image_url = input.image_url.getD y.image_url ∧
            y2.is_available = input.is_available.getD y.is_available) ∧
        ret.id = m0.id ∧ ret.created_at = m0.created_at ∧
        ret.name = input.name.getD m0.name ∧
        ret.description = input.description.getD m0.description ∧
        ret.price = input.price.getD m0.price ∧
        ret.category_id = input.category_id.getD m0.category_id ∧
        ret.image_url = input.image_url.getD m0.image_url ∧
        ret.is_available = input.is_available.getD m0.is_available) := by
  refine ⟨?_, ?_, ?_⟩
  · intro hf
    unfold updateMenuItem
    rw [hf]
  · intro m0 hf cid hcid hfc
    unfold updateMenuItem
    rw [hf]
    simp [hcid, hfc]
  · intro m0 hf hok
    have hfk : (match input.category_id with
        | none => true
        | some cid => (st.categories.find? (fun c => c.id == cid)).isSome) =
        true := by
      obtain hnone | ⟨cid, cc, hcid, hfc⟩ := hok
      · rw [hnone]
      · simp [hcid, hfc]
    have hrun : updateMenuItem st input =
        .ok ({ st with
                menuItems := updateWhere (fun m => m.id == input.id)
                  (applyMenuItemUpdate input) st.menuItems },
             applyMenuItemUpdate input m0) := by
      unfold updateMenuItem
      rw [hf]
      simp only [hfk, if_true]
    refine ⟨_, _, hrun, List.length_map _ _, rfl, rfl, ?_, ?_,
      rfl, rfl, rfl, rfl, rfl, rfl, rfl, rfl⟩
    · intro y hy hyne
      rw [mem_updateWhere]
      exact ⟨y, hy, by rw [if_neg (by simpa using hyne)]⟩
    · intro y hy hyid
      refine ⟨applyMenuItemUpdate input y, ?_, rfl, rfl, rfl, rfl, rfl, rfl,
        rfl, rfl⟩
      rw [mem_updateWhere]
      exact ⟨y, hy, by rw [if_pos (by simpa using hyid)]⟩

/-- Witness for C9: present fields applied (null clears description),
absent fields untouched. -/
theorem updateMenuItem_applies_present_fields_witness :
    ∃ st2 ret, updateMenuItem c9Store c9Input = .ok (st2, ret) ∧
      st2.menuItems.length = c9Store.menuItems.length ∧
      st2.orders = c9Store.orders ∧ st2.orderItems = c9Store.orderItems ∧
      (∀ y ∈ c9Store.menuItems, y.id ≠ c9Input.id → y ∈ st2.menuItems) ∧
      (∀ y ∈ c9Store.menuItems, y.id = c9Input.id →
        ∃ y2 ∈ st2.menuItems, y2.id = y.id ∧ y2.created_at = y.created_at ∧
          y2.name = c9Input.name.getD y.name ∧
          y2.description = c9Input.description.getD y.description ∧
          y2.price = c9Input.price.getD y.price ∧
          y2.category_id = c9Input.category_id.getD y.category_id ∧
          y2.image_url = c9Input.image_url.getD y.image_url ∧
          y2.is_available = c9Input.is_available.getD y.is_available) ∧
      ret.id = (⟨1, "Old", some "desc", 1000, 1, some "url", true, 0⟩ : MenuItem).id ∧
      ret.created_at =
        (⟨1, "Old", some "desc", 1000, 1, some "url", true, 0⟩ : MenuItem).created_at ∧
      ret.name = c9Input.name.getD "Old" ∧
      ret.description = c9Input.description.getD (some "desc") ∧
      ret.price = c9Input.price.getD 1000 ∧
      ret.category_id = c9Input.category_id.getD 1 ∧
      ret.image_url = c9Input.image_url.getD (some "url") ∧
      ret.is_available = c9Input.is_available.getD true :=
  (updateMenuItem_applies_present_fields c9Store c9Input).2.2
    ⟨1, "Old", some "desc", 1000, 1, some "url", true, 0⟩ (by decide)
    (Or.inl (by decide))

theorem likeM_percent_nil (f : ℕ) (t : List Char) (hf : t.length < f) :
    likeM f ['%'] t = true := by
  induction f generalizing t with
  | zero => omega
  | succ f ih =>
    cases t with
    | nil => simp [likeM]
    | cons a t2 =>
      have h2 : likeM f ['%'] t2 = true := ih t2 (by simp at hf; omega)
      simp [likeM, h2]

/-- A wildcard-free segment followed by `%` matches exactly the texts
starting with that segment. -/
theorem likeM_seg (s : List Char) : ∀ (f : ℕ) (t : List Char), wildFree s →
    s.length + t.length < f → likeM f (s ++ ['%']) t = charSeg s t := by
  induction s with
  | nil =>
    intro f t _ hf
    rw [List.nil_append, likeM_percent_nil f t (by omega)]
    rfl
  | cons a as ih =>
    intro f t hwf hf
    obtain ⟨ha1, ha2, ha3⟩ := hwf a (List.mem_cons_self a as)
    cases f with
    | zero => omega
    | succ f =>
      cases t with
      | nil =>
        rw [List.cons_append, likeM.eq_def]
        simp [if_neg ha1, if_neg ha2, if_neg ha3, charSeg]
      | cons b t2 =>
        rw [List.cons_append, likeM.eq_def]
        have hrec := ih f t2
          (fun c hc => hwf c (List.mem_cons_of_mem a hc))
          (by simp at hf ⊢; omega)
        simp [if_neg ha1, if_neg ha2, if_neg ha3, hrec, charSeg]

/-- The full `%term%` ILIKE pattern for a wildcard-free term is exactly
the substring check. -/
theorem likeM_sub (s : List Char) (hwf : wildFree s) :
    ∀ (f : ℕ) (t : List Char), s.length + t.length + 1 < f →
    likeM f ('%' :: (s ++ ['%'])) t = charSub s t := by
  intro f
  induction f with
  | zero => intro t h; omega
  | succ f ih =>
    intro t hf
    rw [likeM.eq_def]
    simp only [reduceIte]
    rw [likeM_seg s f t hwf (by omega)]
    cases t with
    | nil => cases s <;> simp [charSub, charSeg]
    | cons b t2 =>
      have hrec := ih t2 (by simp at hf ⊢; omega)
      simp only [hrec, charSub]

theorem toNat_ofNat_97_122 (n : ℕ) (h1 : 97 ≤ n) (h2 : n ≤ 122) :
    (Char.ofNat n).toNat = n := by
  have hv : n.isValidChar := Or.inl (by omega)
  rw [Char.ofNat, dif_pos hv]
  simp [Char.ofNatAux, Char.toNat, UInt32.toNat, UInt32.ofNatTruncate,
    UInt32.ofNat']

/-- Lowercasing maps no character onto a character below code 97 other
than itself; in particular the preimages of `%`, `_` and `\` are
themselves. -/
theorem lowerChar_eq_low (c w : Char) (hwn : w.toNat < 97)
    (h : lowerChar c = w) : c = w := by
  unfold lowerChar Char.toLower at h
  by_cases hc : c.toNat ≥ 65 ∧ c.toNat ≤ 90
  · rw [if_pos hc] at h
    have hn := congrArg Char.toNat h
    rw [toNat_ofNat_97_122 (c.toNat + 32) (by omega) (by omega)] at hn
    omega
  · rwa [if_neg hc] at h

theorem wildFree_map_lower (s : List Char) (h : wildFree s) :
    wildFree (s.map lowerChar) := by
  intro c hc
  rw [List.mem_map] at hc
  obtain ⟨c0, hc0, hlc⟩ := hc
  obtain ⟨h1, h2, h3⟩ := h c0 hc0
  subst hlc
  refine ⟨fun he => ?_, fun he => ?_, fun he => ?_⟩
  · exact h1 (lowerChar_eq_low c0 '%' (by decide) he)
  · exact h2 (lowerChar_eq_low c0 '_' (by decide) he)
  · exact h3 (lowerChar_eq_low c0 '\\' (by decide) he)

/-- For a search term without LIKE metacharacters, the code's
`ILIKE '%term%'` equals the spec's case-insensitive substring check. -/
theorem ilike_eq_isSubCI (s t : String) (hwf : wildFree s.data) :
    ilike ("%" ++ s ++ "%") t = isSubCI s t := by
  unfold ilike isSubCI
  have hlow : lowerChar '%' = '%' := by decide
  have hdata : ("%" ++ s ++ "%").data.map lowerChar =
      '%' :: (s.data.map lowerChar ++ ['%']) := by
    simp [String.data_append, List.map_append, hlow]
  rw [hdata]
  rw [likeM_sub (s.data.map lowerChar) (wildFree_map_lower _ hwf)]
  simp
  omega

theorem isSubCI_empty (h : String) : isSubCI "" h = true := by
  unfold isSubCI
  have : ("" : String).data = [] := rfl
  rw [this]
  cases h.data.map lowerChar <;> simp [charSub, charSeg]

/-- The WHERE conditions the handler builds coincide with the spec's
conjunction whenever the search term carries no LIKE metacharacters. -/
theorem menuConds_iff_specMenuPred (f : Option MenuFilter) (m : MenuItem)
    (hw : ∀ fl s, f = some fl → fl.search = some s → wildFree s.data) :
    menuConds f m = true ↔ specMenuPred f m := by
  cases f with
  | none => simp [menuConds, specMenuPred]
  | some fl =>
    simp only [menuConds, specMenuPred, Bool.and_eq_true]
    have h1 : ((match fl.category_id with
        | some cid => m.category_id == cid
        | none => true) = true) ↔
        (∀ cid, fl.category_id = some cid → m.category_id = cid) := by
      cases hc : fl.category_id <;> simp
    have h2 : ((match fl.search with
        | some s =>
          if s = "" then true
          else
            ilike ("%" ++ s ++ "%") m.name ||
              (match m.description with
                | some d => ilike ("%" ++ s ++ "%") d
                | none => false)
        | none => true) = true) ↔
        (∀ s, fl.search = some s →
          (isSubCI s m.name = true ∨
            ∃ d, m.description = some d ∧ isSubCI s d = true)) := by
      cases hs : fl.search with
      | none => simp
      | some s =>
        simp only [Option.some.injEq, forall_eq']
        by_cases hempty : s = ""
        · subst hempty
          simp [isSubCI_empty]
        · rw [if_neg hempty]
          have hwf := hw fl s rfl hs
          rw [ilike_eq_isSubCI s m.name hwf]
          cases hd : m.description with
          | none => simp
          | some d =>
            simp [ilike_eq_isSubCI s d hwf, Bool.or_eq_true]
    have h3 : ((match fl.min_price with
        | some p => decide (p ≤ m.price)
        | none => true) = true) ↔
        (∀ p, fl.min_price = some p → p ≤ m.price) := by
      cases hp : fl.min_price <;> simp
    have h4 : ((match fl.max_price with
        | some p => decide (m.price ≤ p)
        | none => true) = true) ↔
        (∀ p, fl.max_price = some p → m.price ≤ p) := by
      cases hp : fl.max_price <;> simp
    have h5 : ((if fl.available_only then m.is_available else true) = true) ↔
        (fl.available_only = true → m.is_available = true) := by
      cases fl.available_only <;> simp
    rw [h1, h2, h3, h4, h5]
    tauto

/-- C8 (amended): for a search term free of the LIKE metacharacters
`%`, `_`, `\`, getMenuItems returns exactly the menu items satisfying
the conjunction of the supplied filters — exact category_id equality,
case-insensitive substring match against name or description, inclusive
price bounds, availability (with available_only's zod default true), and
the no-filter default available_only — each joined with its owning
Category.  (For terms containing metacharacters the code's ILIKE pattern
match differs from a substring match — see the counterexample.) -/
theorem getMenuItems_filter_characterization
    (st : Store) (f : Option MenuFilter)
    (hw : ∀ fl s, f = some fl → fl.search = some s → wildFree s.data)
    (m : MenuItem) (c : Category) :
    (m, c) ∈ getMenuItems st f ↔
      m ∈ st.menuItems ∧ specMenuPred f m ∧
      st.categories.find? (fun x => x.id == m.category_id) = some c := by
  unfold getMenuItems
  rw [List.mem_filterMap]
  constructor
  · rintro ⟨m2, hm2, hmap⟩
    rw [List.mem_filter] at hm2
    cases hfind : st.categories.find? (fun x => x.id == m2.category_id) with
    | none => rw [hfind] at hmap; exact absurd hmap (by simp)
    | some c2 =>
      rw [hfind] at hmap
      simp only [Option.map_some', Option.some.injEq, Prod.mk.injEq] at hmap
      obtain ⟨hm, hc⟩ := hmap
      subst hm
      subst hc
      exact ⟨hm2.1, (menuConds_iff_specMenuPred f m2 hw).1 hm2.2, hfind⟩
  · rintro ⟨hmem, hpred, hfind⟩
    refine ⟨m, ?_, ?_⟩
    · rw [List.mem_filter]
      exact ⟨hmem, (menuConds_iff_specMenuPred f m hw).2 hpred⟩
    · rw [hfind]
      rfl

/-- C8 counterexample: searching for "_alad" returns the "Salad" item
(the `_` acts as an ILIKE single-character wildcard) although "_alad" is
not a case-insensitive substring of "Salad" — so getMenuItems does not
return exactly the items satisfying the claimed substring predicate. -/
theorem getMenuItems_wildcard_breaks_substring :
    (getMenuItems c8Store (some ⟨none, some "_alad", none, none, true⟩)).map
        (fun r => r.1.id) = [1] ∧
    isSubCI "_alad" "Salad" = false := by
  decide

/-- Witness for the amended C8: on the spec's example catalog with the
wildcard-free search "chicken", membership of (Grilled Chicken, Cat) is
exactly the spec predicate conjunction. -/
theorem getMenuItems_filter_characterization_witness :
    (⟨2, "Grilled Chicken", none, 1850, 1, none, true, 0⟩,
      ⟨1, "Cat", none, 0⟩) ∈
        getMenuItems c8wStore (some ⟨none, some "chicken", none, none, true⟩) ↔
      (⟨2, "Grilled Chicken", none, 1850, 1, none, true, 0⟩ : MenuItem) ∈
          c8wStore.menuItems ∧
        specMenuPred (some ⟨none, some "chicken", none, none, true⟩)
          ⟨2, "Grilled Chicken", none, 1850, 1, none, true, 0⟩ ∧
        c8wStore.categories.find?
            (fun x => x.id ==
              (⟨2, "Grilled Chicken", none, 1850, 1, none, true, 0⟩ :
                MenuItem).category_id) =
          some ⟨1, "Cat", none, 0⟩ :=
  getMenuItems_filter_characterization c8wStore
    (some ⟨none, some "chicken", none, none, true⟩)
    (by intro fl s hfl hs
        cases hfl
        cases hs
        decide)
    ⟨2, "Grilled Chicken", none, 1850, 1, none, true, 0⟩ ⟨1, "Cat", none, 0⟩

end Resto
